import Mathlib

/-!
Shallow embedding of the PS1 emulator CPU core (cpu.rs, cop0.rs, mmu.rs).

Machine integers are modelled as `Nat` carrying u32/u8 values, with
wrap-around made explicit via `% 2 ^ 32` (resp. `% 256`).  Rust code that
can `panic!` or trip an `assert!` is modelled with `Option`: `none` is the
panic.  Byte buffers (RAM, BIOS) are modelled as functions `Nat → Nat`
returning bytes.
-/

namespace PS1

/-- wrap-around bound of u32 arithmetic -/
def U32 : Nat := 2 ^ 32

/-- Rust `u32::wrapping_add` -/
def add32 (a b : Nat) : Nat := (a + b) % U32

/-- Rust `u32::wrapping_sub` (total: reduces the subtrahend first) -/
def sub32 (a b : Nat) : Nat := (a + (U32 - b % U32)) % U32

/-- Rust `<<` on u32: shifted-out bits are discarded -/
def shl32 (a s : Nat) : Nat := (a <<< s) % U32

/-- Rust `!` (bitwise complement) on u32 -/
def not32 (a : Nat) : Nat := a ^^^ 0xffffffff

/-- reinterpretation of a u32 bit pattern as an i32 (Rust `as i32`) -/
def toInt32 (n : Nat) : Int := if n % U32 < 2 ^ 31 then ((n % U32 : Nat) : Int) else ((n % U32 : Nat) : Int) - (U32 : Int)

/-- truncation of an integer to its low 32 bits as a u32 (Rust `as u32`) -/
def toUInt32 (i : Int) : Nat := (i % (U32 : Int)).toNat

/-- i32 range test used to model Rust `checked_add` / `checked_sub` -/
def inI32 (x : Int) : Bool := decide (-(2 ^ 31) ≤ x) && decide (x < 2 ^ 31)

/-- sign extension of the low 16 bits to a u32 (Rust `as i16 as u32`) -/
def sext16 (n : Nat) : Nat := if n % 65536 < 32768 then n % 65536 else n % 65536 + 0xffff0000

/-- sign extension of the low 8 bits to a u32 (Rust `as i8 as u32`) -/
def sext8 (n : Nat) : Nat := if n % 256 < 128 then n % 256 else n % 256 + 0xffffff00

/-- pointwise function update, used for byte buffers and the register file -/
def updFn (f : Nat → Nat) (k v : Nat) : Nat → Nat := fun i => if i = k then v else f i

/-! Byte-buffer accessors (mmu.rs free functions), little endian. -/

/-- mmu.rs `read8` -/
def read8b (data : Nat → Nat) (offset : Nat) : Nat := data offset % 256

/-- mmu.rs `read16` (`u16::from_le_bytes`) -/
def read16b (data : Nat → Nat) (offset : Nat) : Nat :=
  data offset % 256 + 256 * (data (offset + 1) % 256)

/-- mmu.rs `read32` (`u32::from_le_bytes`) -/
def read32b (data : Nat → Nat) (offset : Nat) : Nat :=
  data offset % 256 + 256 * (data (offset + 1) % 256) + 65536 * (data (offset + 2) % 256) +
    16777216 * (data (offset + 3) % 256)

/-- mmu.rs `write8` -/
def write8b (data : Nat → Nat) (offset val : Nat) : Nat → Nat := updFn data offset (val % 256)

/-- mmu.rs `write16` (`u16::to_le_bytes`) -/
def write16b (data : Nat → Nat) (offset val : Nat) : Nat → Nat :=
  updFn (updFn data offset (val % 256)) (offset + 1) (val / 256 % 256)

/-- mmu.rs `write32` (`u32::to_le_bytes`) -/
def write32b (data : Nat → Nat) (offset val : Nat) : Nat → Nat :=
  updFn (updFn (updFn (updFn data offset (val % 256)) (offset + 1) (val / 256 % 256))
    (offset + 2) (val / 65536 % 256)) (offset + 3) (val / 16777216 % 256)

/-- mmu.rs `MemRange` (the Rust field `end` is spelled `end_`) -/
structure MemRange where
  start : Nat
  length : Nat
  end_ : Nat

/-- mmu.rs `MemRange::new` -/
def MemRange.new (start length : Nat) : MemRange := ⟨start, length, start + length⟩

/-- mmu.rs `MemRange::contains` -/
def MemRange.contains (r : MemRange) (addr : Nat) : Option Nat :=
  if r.start ≤ addr ∧ addr < r.end_ then some (addr - r.start) else none

/-- mmu.rs `Mmu`: the BIOS and RAM byte buffers -/
structure Mmu where
  bios : Nat → Nat
  ram : Nat → Nat

/-- mmu.rs `Mmu::EXP1` -/
def Mmu.EXP1 : MemRange := MemRange.new 0x1f000000 (8192 * 1024)

/-- mmu.rs `Mmu::BIOS` -/
def Mmu.BIOS : MemRange := MemRange.new 0x1fc00000 (512 * 1024)

/-- mmu.rs `Mmu::SYS_CTRL` -/
def Mmu.SYS_CTRL : MemRange := MemRange.new 0x1f801000 36

/-- mmu.rs `Mmu::RAM_CTRL` -/
def Mmu.RAM_CTRL : MemRange := MemRange.new 0x1f801060 4

/-- mmu.rs `Mmu::IRQ_CTRL` -/
def Mmu.IRQ_CTRL : MemRange := MemRange.new 0x1f801070 8

/-- mmu.rs `Mmu::DMA` -/
def Mmu.DMA : MemRange := MemRange.new 0x1f801080 128

/-- mmu.rs `Mmu::TIMERS` -/
def Mmu.TIMERS : MemRange := MemRange.new 0x1f801100 48

/-- mmu.rs `Mmu::SPU` -/
def Mmu.SPU : MemRange := MemRange.new 0x1f801c00 640

/-- mmu.rs `Mmu::EXP2` -/
def Mmu.EXP2 : MemRange := MemRange.new 0x1f802000 66

/-- mmu.rs `Mmu::EXP3` -/
def Mmu.EXP3 : MemRange := MemRange.new 0x1fa00000 (2048 * 1024)

/-- mmu.rs `Mmu::RAM` -/
def Mmu.RAM : MemRange := MemRange.new 0 (2048 * 1024)

/-- mmu.rs `Mmu::GPU` -/
def Mmu.GPU : MemRange := MemRange.new 0x1f801810 8

/-- mmu.rs `Mmu::CACHE_CTRL` -/
def Mmu.CACHE_CTRL : MemRange := MemRange.new 0xfffe0130 4

/-- mmu.rs `Mmu::REGION_MASK` -/
def Mmu.REGION_MASK : List Nat :=
  [0xffffffff, 0xffffffff, 0xffffffff, 0xffffffff, 0x7fffffff, 0x1fffffff, 0xffffffff, 0xffffffff]

/-- mmu.rs `Mmu::mask_region` (for u32 addresses `addr >>> 29 < 8` always holds) -/
def Mmu.mask_region (addr : Nat) : Nat := addr &&& Mmu.REGION_MASK.getD (addr >>> 29) 0

/-- mmu.rs `Mmu::read::<SIZE>`: `none` models the unaligned-read `assert!` failure.
The hardware-register stub windows log and return a benign constant. -/
def Mmu.readAux (m : Mmu) (size : Nat) (access : (Nat → Nat) → Nat → Nat) (addr : Nat) : Option Nat :=
  if addr % size ≠ 0 then none else
  let a := Mmu.mask_region addr
  match Mmu.BIOS.contains a with
  | some offset => some (access m.bios offset)
  | none =>
    match Mmu.RAM.contains a with
    | some offset => some (access m.ram (offset % (2048 * 1024)))
    | none =>
      if (Mmu.EXP1.contains a).isSome then some 0xff
      else if (Mmu.IRQ_CTRL.contains a).isSome then some 0
      else if (Mmu.DMA.contains a).isSome then some 0
      else if (Mmu.SPU.contains a).isSome then some 0
      else if (Mmu.GPU.contains a).isSome then some 0
      else some 0

/-- mmu.rs `Mmu::write::<SIZE>`: `none` models the unaligned-write `assert!` failure.
Only RAM commits; every hardware-register window (and the unknown default)
merely logs and discards the value, leaving the state unchanged. -/
def Mmu.writeAux (m : Mmu) (size : Nat) (access : (Nat → Nat) → Nat → Nat → Nat → Nat) (addr val : Nat) : Option Mmu :=
  if addr % size ≠ 0 then none else
  let a := Mmu.mask_region addr
  match Mmu.RAM.contains a with
  | some offset => some { m with ram := access m.ram (offset % (2048 * 1024)) val }
  | none => some m

/-- mmu.rs `Mmu::read32` -/
def Mmu.read32 (m : Mmu) (addr : Nat) : Option Nat := m.readAux 4 read32b addr

/-- mmu.rs `Mmu::read16` -/
def Mmu.read16 (m : Mmu) (addr : Nat) : Option Nat := m.readAux 2 read16b addr

/-- mmu.rs `Mmu::read8` -/
def Mmu.read8 (m : Mmu) (addr : Nat) : Option Nat := m.readAux 1 read8b addr

/-- mmu.rs `Mmu::write32` -/
def Mmu.write32 (m : Mmu) (addr val : Nat) : Option Mmu := m.writeAux 4 write32b addr val

/-- mmu.rs `Mmu::write16` -/
def Mmu.write16 (m : Mmu) (addr val : Nat) : Option Mmu := m.writeAux 2 write16b addr val

/-- mmu.rs `Mmu::write8` -/
def Mmu.write8 (m : Mmu) (addr val : Nat) : Option Mmu := m.writeAux 1 write8b addr val

/-- cop0.rs `Cop0` -/
structure Cop0 where
  sr : Nat
  cause : Nat
  epc : Nat

/-- cop0.rs `#[derive(Default)]` for `Cop0` -/
def Cop0.default : Cop0 := ⟨0, 0, 0⟩

/-- cop0.rs `Cop0::reg` -/
def Cop0.reg (c : Cop0) (r : Nat) : Nat :=
  if r = 12 then c.sr else if r = 13 then c.cause else if r = 14 then c.epc else 0

/-- cop0.rs `Cop0::set_reg`: `none` models the `panic!` branches -/
def Cop0.set_reg (c : Cop0) (r v : Nat) : Option Cop0 :=
  if r = 3 ∨ r = 5 ∨ r = 6 ∨ r = 7 ∨ r = 9 ∨ r = 11 then
    if v ≠ 0 then none else some c
  else if r = 12 then some { c with sr := v }
  else if r = 13 then some { c with cause := v }
  else if r = 14 then some { c with epc := v }
  else none

/-- cop0.rs `Cop0::is_cache_isolated` (SR bit 16) -/
def Cop0.is_cache_isolated (c : Cop0) : Bool := (c.sr >>> 16) &&& 1 == 1

/-- cop0.rs `Cop0::boot_expt_vector` (SR bit 22) -/
def Cop0.boot_expt_vector (c : Cop0) : Bool := (c.sr >>> 22) &&& 1 == 1

/-- cop0.rs `Exception` -/
inductive Exception where
  | Interrupt
  | IllegalLoad
  | IllegalStore
  | Syscall
  | Break
  | IllegalInstr
  | CopError
  | Overflow
deriving DecidableEq

/-- discriminant values of cop0.rs `Exception` -/
def Exception.code : Exception → Nat
  | .Interrupt => 0
  | .IllegalLoad => 4
  | .IllegalStore => 5
  | .Syscall => 8
  | .Break => 9
  | .IllegalInstr => 10
  | .CopError => 11
  | .Overflow => 12

/-! Instruction-word field extraction (cpu.rs `Instr`).  The word is a plain
`Nat` carrying the fetched u32; register indices are `Nat` (always < 32
because they are 5-bit fields). -/

/-- cpu.rs `Instr::opcode` -/
def Instr.opcode (i : Nat) : Nat := (i >>> 26) &&& 0b111111

/-- cpu.rs `Instr::rs` -/
def Instr.rs (i : Nat) : Nat := (i >>> 21) &&& 0b11111

/-- cpu.rs `Instr::rt` -/
def Instr.rt (i : Nat) : Nat := (i >>> 16) &&& 0b11111

/-- cpu.rs `Instr::rd` -/
def Instr.rd (i : Nat) : Nat := (i >>> 11) &&& 0b11111

/-- cpu.rs `Instr::shift` -/
def Instr.shift (i : Nat) : Nat := (i >>> 6) &&& 0b11111

/-- cpu.rs `Instr::funct` -/
def Instr.funct (i : Nat) : Nat := i &&& 0b111111

/-- cpu.rs `Instr::imm16` -/
def Instr.imm16 (i : Nat) : Nat := i &&& 0xffff

/-- cpu.rs `Instr::imm16sign` (`as i16 as u32`) -/
def Instr.imm16sign (i : Nat) : Nat := sext16 (Instr.imm16 i)

/-- cpu.rs `Instr::imm26` -/
def Instr.imm26 (i : Nat) : Nat := i &&& 0x03ffffff

/-- cpu.rs `Instr::offset16sign` -/
def Instr.offset16sign (i : Nat) : Nat := shl32 (Instr.imm16sign i) 2

/-- cpu.rs `Instr::offset26` -/
def Instr.offset26 (i : Nat) : Nat := shl32 (Instr.imm26 i) 2

/-- cpu.rs `Cpu` (register indices as `Nat`; `i` is the current instruction word) -/
structure Cpu where
  regs : Nat → Nat
  hi : Nat
  lo : Nat
  pc : Nat
  mmu : Mmu
  i : Nat
  curr_pc : Nat
  next_pc : Nat
  in_delay_slot : Bool
  ld_delay_slots : List (Nat × Nat)
  cop0 : Cop0

/-- cpu.rs `Cpu::new` (the `[0xdead_beef; 32]` fill followed by `regs[0] = 0`) -/
def Cpu.new (mmu : Mmu) : Cpu :=
  { regs := updFn (fun _ => 0xdeadbeef) 0 0
    hi := 0
    lo := 0
    pc := Mmu.BIOS.start
    mmu := mmu
    i := 0
    curr_pc := Mmu.BIOS.start
    next_pc := Mmu.BIOS.start + 4
    in_delay_slot := false
    ld_delay_slots := []
    cop0 := Cop0.default }

/-- cpu.rs `Cpu::reg` -/
def Cpu.reg (c : Cpu) (r : Nat) : Nat := c.regs r

/-- cpu.rs `Cpu::rs_val` -/
def Cpu.rs_val (c : Cpu) : Nat := c.reg (Instr.rs c.i)

/-- cpu.rs `Cpu::rt_val` -/
def Cpu.rt_val (c : Cpu) : Nat := c.reg (Instr.rt c.i)

/-- cpu.rs `Cpu::set_reg` on the bare register file: `regs[reg] = res; regs[0] = 0;` -/
def setRegFile (regs : Nat → Nat) (r v : Nat) : Nat → Nat := updFn (updFn regs r v) 0 0

/-- cpu.rs `Cpu::set_reg` -/
def Cpu.set_reg (c : Cpu) (r v : Nat) : Cpu := { c with regs := setRegFile c.regs r v }

/-- cpu.rs `Cpu::exception` -/
def Cpu.exception (c : Cpu) (expt : Exception) : Cpu :=
  let cause0 := (c.cop0.cause &&& not32 0x7c) ||| (expt.code <<< 2)
  let mode := c.cop0.sr &&& 0x3f
  let sr1 := (c.cop0.sr &&& not32 0x3f) ||| ((mode <<< 2) &&& 0x3f)
  let handler := if Cop0.boot_expt_vector { c.cop0 with cause := cause0, sr := sr1 } then 0xbfc00180 else 0x80000080
  let epc1 := if c.in_delay_slot then sub32 c.curr_pc 4 else c.curr_pc
  let cause1 := if c.in_delay_slot then cause0 ||| (1 <<< 31) else cause0
  { c with cop0 := { sr := sr1, cause := cause1, epc := epc1 }
           pc := handler
           next_pc := add32 handler 4 }

/-- cpu.rs `Cpu::mtc0` (`none` when `Cop0::set_reg` panics) -/
def Cpu.mtc0 (c : Cpu) : Option Cpu :=
  (c.cop0.set_reg (Instr.rd c.i) c.rt_val).map fun cop => { c with cop0 := cop }

/-- cpu.rs `Cpu::mfc0` (a delayed load: push onto the load-delay queue) -/
def Cpu.mfc0 (c : Cpu) : Option Cpu :=
  some { c with ld_delay_slots := c.ld_delay_slots ++ [(Instr.rt c.i, c.cop0.reg (Instr.rd c.i))] }

/-- cpu.rs `Cpu::rfe` (`none` models the panic on a non-RFE cop0 funct) -/
def Cpu.rfe (c : Cpu) : Option Cpu :=
  if Instr.funct c.i ≠ 0b010000 then none
  else
    let mode := c.cop0.sr &&& 0x3f
    some { c with cop0 := { c.cop0 with sr := (c.cop0.sr &&& not32 0x3f) ||| (mode >>> 2) } }

/-- cpu.rs `Cpu::lui` -/
def Cpu.lui (c : Cpu) : Option Cpu :=
  some (c.set_reg (Instr.rt c.i) (shl32 (Instr.imm16 c.i) 16))

/-- cpu.rs `Cpu::lw` -/
def Cpu.lw (c : Cpu) : Option Cpu :=
  if c.cop0.is_cache_isolated then some c else
  let addr := add32 c.rs_val (Instr.imm16sign c.i)
  if addr % 4 = 0 then
    (c.mmu.read32 addr).map fun res =>
      { c with ld_delay_slots := c.ld_delay_slots ++ [(Instr.rt c.i, res)] }
  else some (c.exception .IllegalLoad)

/-- cpu.rs `Cpu::lh` -/
def Cpu.lh (c : Cpu) : Option Cpu :=
  if c.cop0.is_cache_isolated then some c else
  let addr := add32 c.rs_val (Instr.imm16sign c.i)
  if addr % 2 = 0 then
    (c.mmu.read16 addr).map fun res =>
      { c with ld_delay_slots := c.ld_delay_slots ++ [(Instr.rt c.i, sext16 res)] }
  else some (c.exception .IllegalLoad)

/-- cpu.rs `Cpu::lhu` -/
def Cpu.lhu (c : Cpu) : Option Cpu :=
  if c.cop0.is_cache_isolated then some c else
  let addr := add32 c.rs_val (Instr.imm16sign c.i)
  if addr % 2 = 0 then
    (c.mmu.read16 addr).map fun res =>
      { c with ld_delay_slots := c.ld_delay_slots ++ [(Instr.rt c.i, res)] }
  else some (c.exception .IllegalLoad)

/-- cpu.rs `Cpu::lb` -/
def Cpu.lb (c : Cpu) : Option Cpu :=
  if c.cop0.is_cache_isolated then some c else
  let addr := add32 c.rs_val (Instr.imm16sign c.i)
  (c.mmu.read8 addr).map fun res =>
    { c with ld_delay_slots := c.ld_delay_slots ++ [(Instr.rt c.i, sext8 res)] }

/-- cpu.rs `Cpu::lbu` -/
def Cpu.lbu (c : Cpu) : Option Cpu :=
  if c.cop0.is_cache_isolated then some c else
  let addr := add32 c.rs_val (Instr.imm16sign c.i)
  (c.mmu.read8 addr).map fun res =>
    { c with ld_delay_slots := c.ld_delay_slots ++ [(Instr.rt c.i, res)] }

/-- first queued pending value for a register, cpu.rs `find_map` over the
load-delay queue in `Cpu::lwl` / `Cpu::lwr` -/
def findPending : List (Nat × Nat) → Nat → Option Nat
  | [], _ => none
  | (r, v) :: rest, rt => if r = rt then some v else findPending rest rt

/-- register side of cpu.rs `Cpu::lwl` / `Cpu::lwr`: the pending delay-slot value
of rt when queued, otherwise the register file -/
def Cpu.lwl_reg (c : Cpu) : Nat := (findPending c.ld_delay_slots (Instr.rt c.i)).getD c.rt_val

/-- cpu.rs `Cpu::lwl` (the `3` arm covers `addr & 3 = 3`; no isolation check in the source) -/
def Cpu.lwl (c : Cpu) : Option Cpu :=
  let addr := add32 c.rs_val (Instr.imm16sign c.i)
  let reg := c.lwl_reg
  let aligned_addr := addr &&& not32 3
  (c.mmu.read32 aligned_addr).map fun aligned_word =>
    let res :=
      if addr &&& 3 = 0 then (reg &&& 0x00ffffff) ||| shl32 aligned_word 24
      else if addr &&& 3 = 1 then (reg &&& 0x0000ffff) ||| shl32 aligned_word 16
      else if addr &&& 3 = 2 then (reg &&& 0x000000ff) ||| shl32 aligned_word 8
      else (reg &&& 0x00000000) ||| shl32 aligned_word 0
    { c with ld_delay_slots := c.ld_delay_slots ++ [(Instr.rt c.i, res)] }

/-- cpu.rs `Cpu::lwr` (no isolation check in the source) -/
def Cpu.lwr (c : Cpu) : Option Cpu :=
  let addr := add32 c.rs_val (Instr.imm16sign c.i)
  let reg := c.lwl_reg
  let aligned_addr := addr &&& not32 3
  (c.mmu.read32 aligned_addr).map fun aligned_word =>
    let res :=
      if addr &&& 3 = 0 then (reg &&& 0x00000000) ||| shl32 aligned_word 0
      else if addr &&& 3 = 1 then (reg &&& 0xff000000) ||| shl32 aligned_word 8
      else if addr &&& 3 = 2 then (reg &&& 0xffff0000) ||| shl32 aligned_word 16
      else (reg &&& 0xffffff00) ||| shl32 aligned_word 24
    { c with ld_delay_slots := c.ld_delay_slots ++ [(Instr.rt c.i, res)] }

/-- cpu.rs `Cpu::sw` -/
def Cpu.sw (c : Cpu) : Option Cpu :=
  if c.cop0.is_cache_isolated then some c else
  let addr := add32 c.rs_val (Instr.imm16sign c.i)
  if addr % 4 = 0 then
    (c.mmu.write32 addr c.rt_val).map fun m => { c with mmu := m }
  else some (c.exception .IllegalStore)

/-- cpu.rs `Cpu::sh` -/
def Cpu.sh (c : Cpu) : Option Cpu :=
  if c.cop0.is_cache_isolated then some c else
  let addr := add32 c.rs_val (Instr.imm16sign c.i)
  if addr % 2 = 0 then
    (c.mmu.write16 addr c.rt_val).map fun m => { c with mmu := m }
  else some (c.exception .IllegalStore)

/-- cpu.rs `Cpu::sb` -/
def Cpu.sb (c : Cpu) : Option Cpu :=
  if c.cop0.is_cache_isolated then some c else
  let addr := add32 c.rs_val (Instr.imm16sign c.i)
  (c.mmu.write8 addr c.rt_val).map fun m => { c with mmu := m }

/-- cpu.rs `Cpu::swl` (no isolation check in the source; note the final store
goes to the raw `addr`, not `aligned_addr`) -/
def Cpu.swl (c : Cpu) : Option Cpu :=
  let addr := add32 c.rs_val (Instr.imm16sign c.i)
  let reg := c.rt_val
  let aligned_addr := addr &&& not32 3
  (c.mmu.read32 aligned_addr).bind fun aligned_word =>
    let res :=
      if addr &&& 3 = 0 then (reg &&& 0xffffff00) ||| (aligned_word >>> 24)
      else if addr &&& 3 = 1 then (reg &&& 0xffff0000) ||| (aligned_word >>> 16)
      else if addr &&& 3 = 2 then (reg &&& 0xff000000) ||| (aligned_word >>> 8)
      else (reg &&& 0x00000000) ||| (aligned_word >>> 0)
    (c.mmu.write32 addr res).map fun m => { c with mmu := m }

/-- cpu.rs `Cpu::swr` (no isolation check in the source; same raw-`addr` store) -/
def Cpu.swr (c : Cpu) : Option Cpu :=
  let addr := add32 c.rs_val (Instr.imm16sign c.i)
  let reg := c.rt_val
  let aligned_addr := addr &&& not32 3
  (c.mmu.read32 aligned_addr).bind fun aligned_word =>
    let res :=
      if addr &&& 3 = 0 then (reg &&& 0x00000000) ||| shl32 aligned_word 0
      else if addr &&& 3 = 1 then (reg &&& 0x000000ff) ||| shl32 aligned_word 8
      else if addr &&& 3 = 2 then (reg &&& 0x0000ffff) ||| shl32 aligned_word 16
      else (reg &&& 0x00ffffff) ||| shl32 aligned_word 24
    (c.mmu.write32 addr res).map fun m => { c with mmu := m }

/-- cpu.rs `Cpu::add` (`i32::checked_add`) -/
def Cpu.add (c : Cpu) : Option Cpu :=
  let rs := toInt32 c.rs_val
  let rt := toInt32 c.rt_val
  if inI32 (rs + rt) then some (c.set_reg (Instr.rd c.i) (toUInt32 (rs + rt)))
  else some (c.exception .Overflow)

/-- cpu.rs `Cpu::addi` -/
def Cpu.addi (c : Cpu) : Option Cpu :=
  let rs := toInt32 c.rs_val
  let im := toInt32 (Instr.imm16sign c.i)
  if inI32 (rs + im) then some (c.set_reg (Instr.rt c.i) (toUInt32 (rs + im)))
  else some (c.exception .Overflow)

/-- cpu.rs `Cpu::addiu` -/
def Cpu.addiu (c : Cpu) : Option Cpu :=
  some (c.set_reg (Instr.rt c.i) (add32 c.rs_val (Instr.imm16sign c.i)))

/-- cpu.rs `Cpu::addu` -/
def Cpu.addu (c : Cpu) : Option Cpu :=
  some (c.set_reg (Instr.rd c.i) (add32 c.rs_val c.rt_val))

/-- cpu.rs `Cpu::sub` (`i32::checked_sub`) -/
def Cpu.sub (c : Cpu) : Option Cpu :=
  let rs := toInt32 c.rs_val
  let rt := toInt32 c.rt_val
  if inI32 (rs - rt) then some (c.set_reg (Instr.rd c.i) (toUInt32 (rs - rt)))
  else some (c.exception .Overflow)

/-- cpu.rs `Cpu::subu` -/
def Cpu.subu (c : Cpu) : Option Cpu :=
  some (c.set_reg (Instr.rd c.i) (sub32 c.rs_val c.rt_val))

/-- cpu.rs `Cpu::mult` (i64 product; `>> 32` on i64 is a floor division) -/
def Cpu.mult (c : Cpu) : Option Cpu :=
  let res := toInt32 c.rs_val * toInt32 c.rt_val
  some { c with lo := toUInt32 res, hi := toUInt32 (Int.fdiv res (U32 : Int)) }

/-- cpu.rs `Cpu::multu` -/
def Cpu.multu (c : Cpu) : Option Cpu :=
  let res := c.rs_val * c.rt_val
  some { c with lo := res % U32, hi := (res >>> 32) % U32 }

/-- cpu.rs `Cpu::div` (signed; `Int.tdiv` / `Int.tmod` match Rust `/` and `%` on i32) -/
def Cpu.div (c : Cpu) : Option Cpu :=
  let dividend := toInt32 c.rs_val
  let divisor := toInt32 c.rt_val
  if divisor = 0 then
    some { c with hi := toUInt32 dividend, lo := if dividend > 0 then 0xffffffff else 1 }
  else if toUInt32 dividend = 0x80000000 ∧ divisor = -1 then
    some { c with hi := 0, lo := 0x80000000 }
  else
    some { c with hi := toUInt32 (Int.tmod dividend divisor), lo := toUInt32 (Int.tdiv dividend divisor) }

/-- cpu.rs `Cpu::divu` -/
def Cpu.divu (c : Cpu) : Option Cpu :=
  let dividend := c.rs_val
  let divisor := c.rt_val
  if divisor = 0 then
    some { c with hi := dividend, lo := 0xffffffff }
  else
    some { c with hi := dividend % divisor, lo := dividend / divisor }

/-- cpu.rs `Cpu::mfhi` -/
def Cpu.mfhi (c : Cpu) : Option Cpu := some (c.set_reg (Instr.rd c.i) c.hi)

/-- cpu.rs `Cpu::mflo` -/
def Cpu.mflo (c : Cpu) : Option Cpu := some (c.set_reg (Instr.rd c.i) c.lo)

/-- cpu.rs `Cpu::mthi` -/
def Cpu.mthi (c : Cpu) : Option Cpu := some { c with hi := c.rs_val }

/-- cpu.rs `Cpu::mtlo` -/
def Cpu.mtlo (c : Cpu) : Option Cpu := some { c with lo := c.rs_val }

/-- cpu.rs `Cpu::jump`, as a pure state transformer (also used by `jal`) -/
def Cpu.jumpP (c : Cpu) : Cpu :=
  { c with next_pc := (c.pc &&& 0xf0000000) ||| Instr.offset26 c.i, in_delay_slot := true }

/-- cpu.rs `Cpu::jump` -/
def Cpu.jump (c : Cpu) : Option Cpu := some c.jumpP

/-- cpu.rs `Cpu::jal` (link to r31, then jump) -/
def Cpu.jal (c : Cpu) : Option Cpu := some (Cpu.jumpP (c.set_reg 31 c.next_pc))

/-- cpu.rs `Cpu::jr` -/
def Cpu.jr (c : Cpu) : Option Cpu := some { c with next_pc := c.rs_val, in_delay_slot := true }

/-- cpu.rs `Cpu::jalr` (the link write happens before `rs` is read) -/
def Cpu.jalr (c : Cpu) : Option Cpu :=
  let c1 := c.set_reg (Instr.rd c.i) c.next_pc
  some { c1 with next_pc := c1.rs_val, in_delay_slot := true }

/-- cpu.rs `Cpu::syscall` -/
def Cpu.syscall (c : Cpu) : Option Cpu := some (c.exception .Syscall)

/-- cpu.rs `Cpu::slt` -/
def Cpu.slt (c : Cpu) : Option Cpu :=
  some (c.set_reg (Instr.rd c.i) (if toInt32 c.rs_val < toInt32 c.rt_val then 1 else 0))

/-- cpu.rs `Cpu::slti` -/
def Cpu.slti (c : Cpu) : Option Cpu :=
  some (c.set_reg (Instr.rt c.i) (if toInt32 c.rs_val < toInt32 (Instr.imm16sign c.i) then 1 else 0))

/-- cpu.rs `Cpu::sltu` -/
def Cpu.sltu (c : Cpu) : Option Cpu :=
  some (c.set_reg (Instr.rd c.i) (if c.rs_val < c.rt_val then 1 else 0))

/-- cpu.rs `Cpu::sltiu` -/
def Cpu.sltiu (c : Cpu) : Option Cpu :=
  some (c.set_reg (Instr.rt c.i) (if c.rs_val < Instr.imm16sign c.i then 1 else 0))

/-- cpu.rs `Cpu::branch`, as a pure state transformer -/
def Cpu.branchP (c : Cpu) (cond : Bool) : Cpu :=
  let c1 := if cond then { c with next_pc := add32 (sub32 c.next_pc 4) (Instr.offset16sign c.i) } else c
  { c1 with in_delay_slot := true }

/-- cpu.rs `Cpu::beq` -/
def Cpu.beq (c : Cpu) : Option Cpu := some (c.branchP (c.rs_val == c.rt_val))

/-- cpu.rs `Cpu::bgez`, as a pure state transformer (also used by `bgezal`) -/
def Cpu.bgezP (c : Cpu) : Cpu := c.branchP (decide (0 ≤ toInt32 c.rs_val))

/-- cpu.rs `Cpu::bltz`, as a pure state transformer (also used by `bltzal`) -/
def Cpu.bltzP (c : Cpu) : Cpu := c.branchP (decide (toInt32 c.rs_val < 0))

/-- cpu.rs `Cpu::bgtz` -/
def Cpu.bgtz (c : Cpu) : Option Cpu := some (c.branchP (decide (0 < toInt32 c.rs_val)))

/-- cpu.rs `Cpu::blez` -/
def Cpu.blez (c : Cpu) : Option Cpu := some (c.branchP (decide (toInt32 c.rs_val ≤ 0)))

/-- cpu.rs `Cpu::bne` -/
def Cpu.bne (c : Cpu) : Option Cpu := some (c.branchP (c.rs_val != c.rt_val))

/-- cpu.rs `Cpu::bxxx` (the Rust literal `1_0000` is decimal ten thousand;
its low five bits equal 16, so the link test is `kind & 16` in effect) -/
def Cpu.bxxx (c : Cpu) : Option Cpu :=
  let kind := Instr.rt c.i
  let is_bgez := kind &&& 1 ≠ 0
  let is_link := kind &&& 10000 ≠ 0
  if is_bgez then
    if is_link then some (Cpu.bgezP (c.set_reg 31 c.next_pc)) else some c.bgezP
  else
    if is_link then some (Cpu.bltzP (c.set_reg 31 c.next_pc)) else some c.bltzP

/-- cpu.rs `Cpu::brk` -/
def Cpu.brk (c : Cpu) : Option Cpu := some (c.exception .Break)

/-- cpu.rs `Cpu::and` -/
def Cpu.and (c : Cpu) : Option Cpu := some (c.set_reg (Instr.rd c.i) (c.rs_val &&& c.rt_val))

/-- cpu.rs `Cpu::andi` -/
def Cpu.andi (c : Cpu) : Option Cpu := some (c.set_reg (Instr.rt c.i) (c.rs_val &&& Instr.imm16 c.i))

/-- cpu.rs `Cpu::or` -/
def Cpu.or (c : Cpu) : Option Cpu := some (c.set_reg (Instr.rd c.i) (c.rs_val ||| c.rt_val))

/-- cpu.rs `Cpu::ori` -/
def Cpu.ori (c : Cpu) : Option Cpu := some (c.set_reg (Instr.rt c.i) (c.rs_val ||| Instr.imm16 c.i))

/-- cpu.rs `Cpu::nor` -/
def Cpu.nor (c : Cpu) : Option Cpu := some (c.set_reg (Instr.rd c.i) (not32 (c.rs_val ||| c.rt_val)))

/-- cpu.rs `Cpu::xor` -/
def Cpu.xor (c : Cpu) : Option Cpu := some (c.set_reg (Instr.rd c.i) (c.rs_val ^^^ c.rt_val))

/-- cpu.rs `Cpu::xori` -/
def Cpu.xori (c : Cpu) : Option Cpu := some (c.set_reg (Instr.rt c.i) (c.rs_val ^^^ Instr.imm16 c.i))

/-- cpu.rs `Cpu::sll` -/
def Cpu.sll (c : Cpu) : Option Cpu :=
  some (c.set_reg (Instr.rd c.i) (shl32 c.rt_val (Instr.shift c.i)))

/-- cpu.rs `Cpu::srl` -/
def Cpu.srl (c : Cpu) : Option Cpu :=
  some (c.set_reg (Instr.rd c.i) (c.rt_val >>> Instr.shift c.i))

/-- cpu.rs `Cpu::sra` (arithmetic shift right on i32 is a floor division) -/
def Cpu.sra (c : Cpu) : Option Cpu :=
  some (c.set_reg (Instr.rd c.i) (toUInt32 (Int.fdiv (toInt32 c.rt_val) (2 ^ Instr.shift c.i))))

/-- cpu.rs `Cpu::sllv` -/
def Cpu.sllv (c : Cpu) : Option Cpu :=
  some (c.set_reg (Instr.rd c.i) (shl32 c.rt_val (c.rs_val &&& 0x1f)))

/-- cpu.rs `Cpu::srav` -/
def Cpu.srav (c : Cpu) : Option Cpu :=
  some (c.set_reg (Instr.rd c.i) (toUInt32 (Int.fdiv (toInt32 c.rt_val) (2 ^ (c.rs_val &&& 0x1f)))))

/-- cpu.rs `Cpu::srlv` -/
def Cpu.srlv (c : Cpu) : Option Cpu :=
  some (c.set_reg (Instr.rd c.i) (c.rt_val >>> (c.rs_val &&& 0x1f)))

/-- funct dispatch for SPECIAL (opcode 0) instructions, cpu.rs `Cpu::decode` inner
match, parameterized by the funct field -/
def Cpu.decodeFunct (f : Nat) (c : Cpu) : Option Cpu :=
  if f = 0b000000 then c.sll
  else if f = 0b000010 then c.srl
  else if f = 0b000011 then c.sra
  else if f = 0b000100 then c.sllv
  else if f = 0b001000 then c.jr
  else if f = 0b001001 then c.jalr
  else if f = 0b001100 then c.syscall
  else if f = 0b001101 then c.brk
  else if f = 0b011000 then c.mult
  else if f = 0b011001 then c.multu
  else if f = 0b011010 then c.div
  else if f = 0b011011 then c.divu
  else if f = 0b010000 then c.mfhi
  else if f = 0b010001 then c.mthi
  else if f = 0b010010 then c.mflo
  else if f = 0b010011 then c.mtlo
  else if f = 0b100000 then c.add
  else if f = 0b100001 then c.addu
  else if f = 0b100010 then c.sub
  else if f = 0b100011 then c.subu
  else if f = 0b100100 then c.and
  else if f = 0b100101 then c.or
  else if f = 0b101010 then c.slt
  else if f = 0b101011 then c.sltu
  else if f = 0b100111 then c.nor
  else if f = 0b100110 then c.xor
  else if f = 0b000111 then c.srav
  else if f = 0b000110 then c.srlv
  else some (c.exception .IllegalInstr)

/-- funct dispatch for SPECIAL instructions at the actual funct field -/
def Cpu.decodeSpecial (c : Cpu) : Option Cpu := Cpu.decodeFunct (Instr.funct c.i) c

/-- rs dispatch for COP0 (opcode 16) instructions, parameterized by the rs
field; `none` models the panic on an unhandled coprocessor-0 instruction -/
def Cpu.decodeCop0R (r : Nat) (c : Cpu) : Option Cpu :=
  if r = 0b00000 then c.mfc0
  else if r = 0b00100 then c.mtc0
  else if r = 0b10000 then c.rfe
  else none

/-- rs dispatch for COP0 instructions at the actual rs field -/
def Cpu.decodeCop0 (c : Cpu) : Option Cpu := Cpu.decodeCop0R (Instr.rs c.i) c

/-- cpu.rs `Cpu::decode`: primary opcode dispatch, parameterized by the opcode
field; `none` models the panics on coprocessor-2 opcodes (18, 50, 58) -/
def Cpu.decodeOp (op : Nat) (c : Cpu) : Option Cpu :=
  if op = 0x00 then c.decodeSpecial
  else if op = 0b010000 then c.decodeCop0
  else if op = 0b010001 then some (c.exception .CopError)
  else if op = 0b010010 then none
  else if op = 0b010011 then some (c.exception .CopError)
  else if op = 0x30 then some (c.exception .CopError)
  else if op = 0x31 then some (c.exception .CopError)
  else if op = 0x32 then none
  else if op = 0x33 then some (c.exception .CopError)
  else if op = 0x38 then some (c.exception .CopError)
  else if op = 0x39 then some (c.exception .CopError)
  else if op = 0x3a then none
  else if op = 0x3b then some (c.exception .CopError)
  else if op = 0b000001 then c.bxxx
  else if op = 0b000010 then c.jump
  else if op = 0b000011 then c.jal
  else if op = 0b000100 then c.beq
  else if op = 0b000101 then c.bne
  else if op = 0b000110 then c.blez
  else if op = 0b000111 then c.bgtz
  else if op = 0b001000 then c.addi
  else if op = 0b001001 then c.addiu
  else if op = 0b001010 then c.slti
  else if op = 0b001011 then c.sltiu
  else if op = 0b001100 then c.andi
  else if op = 0b001101 then c.ori
  else if op = 0b001110 then c.xori
  else if op = 0b001111 then c.lui
  else if op = 0b100000 then c.lb
  else if op = 0b100001 then c.lh
  else if op = 0b100101 then c.lhu
  else if op = 0b100100 then c.lbu
  else if op = 0b100011 then c.lw
  else if op = 0b101000 then c.sb
  else if op = 0b101001 then c.sh
  else if op = 0b101011 then c.sw
  else if op = 0x22 then c.lwl
  else if op = 0x26 then c.lwr
  else if op = 0x2a then c.swl
  else if op = 0x2e then c.swr
  else some (c.exception .IllegalInstr)

/-- cpu.rs `Cpu::decode` at the actual opcode field -/
def Cpu.decode (c : Cpu) : Option Cpu := Cpu.decodeOp (Instr.opcode c.i) c

/-- head-of-queue load-delay commit performed at the start of cpu.rs `Cpu::step` -/
def Cpu.commitLd (c : Cpu) : Cpu :=
  match c.ld_delay_slots with
  | [] => c
  | (reg, val) :: rest => { c.set_reg reg val with ld_delay_slots := rest }

/-- pc-triplet advance performed by cpu.rs `Cpu::step` -/
def Cpu.advancePc (c : Cpu) : Cpu :=
  { c with curr_pc := c.pc, pc := c.next_pc, next_pc := add32 c.next_pc 4 }

/-- the remainder of cpu.rs `Cpu::step` after the load-delay commit:
pc advance, alignment check, fetch, decode, branch-delay-flag clear.
`tty_output` only prints and is stateless. -/
def Cpu.stepAfterCommit (c0 : Cpu) : Option Cpu :=
  let c := c0.advancePc
  if c.curr_pc % 4 ≠ 0 then some (c.exception .IllegalLoad)
  else
    (c.mmu.read32 c.curr_pc).bind fun w =>
      let c1 := { c with i := w }
      let was_delay_slot := c1.in_delay_slot
      c1.decode.map fun c2 => if was_delay_slot then { c2 with in_delay_slot := false } else c2

/-- cpu.rs `Cpu::step` -/
def Cpu.step (c : Cpu) : Option Cpu := c.commitLd.stepAfterCommit

/-! Concrete states used as witnesses and counterexamples. -/

/-- the register-0 invariant on a possibly-panicking outcome -/
def r0ok : Option Cpu → Prop
  | none => True
  | some c => c.regs 0 = 0

/-- a concrete MMU: zeroed BIOS, RAM filled with the 0xca garbage byte of `Mmu::new` -/
def mmu0 : Mmu := { bios := fun _ => 0, ram := fun _ => 0xca }

/-- I-type instruction-word encoder (opcode, rs, rt, imm16) -/
def enc (op rs rt imm : Nat) : Nat := (op <<< 26) ||| (rs <<< 21) ||| (rt <<< 16) ||| imm

/-- the reset state over `mmu0` -/
def cpu0 : Cpu := Cpu.new mmu0

/-- reset state about to execute `DIV r0, r0` (dividend 0, divisor 0) -/
def cpuDiv0 : Cpu := { cpu0 with i := 0b011010 }

/-- reset state about to execute `SWL r1, 0x21(r0)` (effective address 0x21, unaligned) -/
def cpuSwlBug : Cpu := { cpu0 with i := enc 0x2a 0 1 0x21 }

/-- cache-isolated state (SR bit 16 set) about to execute `LWL r1, 0x21(r0)` -/
def cpuIso : Cpu := { cpu0 with i := enc 0x22 0 1 0x21, cop0 := { sr := 0x10000, cause := 0, epc := 0 } }

/-- state about to execute `ADD r3, r1, r2` with r1 = 0x7fffffff, r2 = 1 (signed overflow) -/
def cpuOvf : Cpu :=
  { cpu0 with i := (1 <<< 21) ||| (2 <<< 16) ||| (3 <<< 11) ||| 0x20
              regs := fun r => if r = 1 then 0x7fffffff else if r = 2 then 1 else 0 }

/-- state about to execute `LW r1, 0x100(r0)` (aligned, not isolated) -/
def cpuLw : Cpu := { cpu0 with i := enc 0x23 0 1 0x100 }

/-- state with one pending load-delay entry for register 5 -/
def cpuPend : Cpu := { cpu0 with ld_delay_slots := [(5, 77)] }

/-- state executing `LWL r5, 0(r0)` with a pending delay-slot value queued for r5 -/
def cpuPendLwl : Cpu := { cpu0 with i := enc 0x22 0 5 0, ld_delay_slots := [(5, 77)] }

/-- cache-isolated state (SR bit 16 set) about to execute the aligned
`SWL r1, 0x20(r0)` -/
def cpuIsoSwl : Cpu := { cpu0 with i := enc 0x2a 0 1 0x20, cop0 := { sr := 0x10000, cause := 0, epc := 0 } }

/-! Helper lemmas. -/

theorem setRegFile_zero (regs : Nat → Nat) (r v : Nat) : setRegFile regs r v 0 = 0 := rfl

theorem r0ok_some_iff {c : Cpu} : r0ok (some c) ↔ c.regs 0 = 0 := Iff.rfl

theorem r0ok_bind {α : Type} {o : Option α} {f : α → Option Cpu} (hf : ∀ a, r0ok (f a)) : r0ok (o.bind f) := by
  cases o
  · exact trivial
  · exact hf _

theorem r0ok_map {α : Type} {o : Option α} {f : α → Cpu} (hf : ∀ a, (f a).regs 0 = 0) : r0ok (o.map f) := by
  cases o
  · exact trivial
  · exact hf _

theorem r0_sll (c : Cpu) (_h : c.regs 0 = 0) : r0ok c.sll := rfl
theorem r0_srl (c : Cpu) (_h : c.regs 0 = 0) : r0ok c.srl := rfl
theorem r0_sra (c : Cpu) (_h : c.regs 0 = 0) : r0ok c.sra := rfl
theorem r0_sllv (c : Cpu) (_h : c.regs 0 = 0) : r0ok c.sllv := rfl
theorem r0_srav (c : Cpu) (_h : c.regs 0 = 0) : r0ok c.srav := rfl
theorem r0_srlv (c : Cpu) (_h : c.regs 0 = 0) : r0ok c.srlv := rfl
theorem r0_slt (c : Cpu) (_h : c.regs 0 = 0) : r0ok c.slt := rfl
theorem r0_slti (c : Cpu) (_h : c.regs 0 = 0) : r0ok c.slti := rfl
theorem r0_sltu (c : Cpu) (_h : c.regs 0 = 0) : r0ok c.sltu := rfl
theorem r0_sltiu (c : Cpu) (_h : c.regs 0 = 0) : r0ok c.sltiu := rfl
theorem r0_and (c : Cpu) (_h : c.regs 0 = 0) : r0ok c.and := rfl
theorem r0_andi (c : Cpu) (_h : c.regs 0 = 0) : r0ok c.andi := rfl
theorem r0_or (c : Cpu) (_h : c.regs 0 = 0) : r0ok c.or := rfl
theorem r0_ori (c : Cpu) (_h : c.regs 0 = 0) : r0ok c.ori := rfl
theorem r0_nor (c : Cpu) (_h : c.regs 0 = 0) : r0ok c.nor := rfl
theorem r0_xor (c : Cpu) (_h : c.regs 0 = 0) : r0ok c.xor := rfl
theorem r0_xori (c : Cpu) (_h : c.regs 0 = 0) : r0ok c.xori := rfl
theorem r0_lui (c : Cpu) (_h : c.regs 0 = 0) : r0ok c.lui := rfl
theorem r0_addiu (c : Cpu) (_h : c.regs 0 = 0) : r0ok c.addiu := rfl
theorem r0_addu (c : Cpu) (_h : c.regs 0 = 0) : r0ok c.addu := rfl
theorem r0_subu (c : Cpu) (_h : c.regs 0 = 0) : r0ok c.subu := rfl
theorem r0_mfhi (c : Cpu) (_h : c.regs 0 = 0) : r0ok c.mfhi := rfl
theorem r0_mflo (c : Cpu) (_h : c.regs 0 = 0) : r0ok c.mflo := rfl
theorem r0_jal (c : Cpu) (_h : c.regs 0 = 0) : r0ok c.jal := rfl
theorem r0_jalr (c : Cpu) (_h : c.regs 0 = 0) : r0ok c.jalr := rfl

theorem r0_mthi (c : Cpu) (h : c.regs 0 = 0) : r0ok c.mthi := h
theorem r0_mtlo (c : Cpu) (h : c.regs 0 = 0) : r0ok c.mtlo := h
theorem r0_mult (c : Cpu) (h : c.regs 0 = 0) : r0ok c.mult := h
theorem r0_multu (c : Cpu) (h : c.regs 0 = 0) : r0ok c.multu := h
theorem r0_jump (c : Cpu) (h : c.regs 0 = 0) : r0ok c.jump := h
theorem r0_jr (c : Cpu) (h : c.regs 0 = 0) : r0ok c.jr := h
theorem r0_syscall (c : Cpu) (h : c.regs 0 = 0) : r0ok c.syscall := h
theorem r0_brk (c : Cpu) (h : c.regs 0 = 0) : r0ok c.brk := h
theorem r0_mfc0 (c : Cpu) (h : c.regs 0 = 0) : r0ok c.mfc0 := h

theorem r0_div (c : Cpu) (h : c.regs 0 = 0) : r0ok c.div := by
  simp only [Cpu.div]
  split_ifs <;> exact h

theorem r0_divu (c : Cpu) (h : c.regs 0 = 0) : r0ok c.divu := by
  simp only [Cpu.divu]
  split_ifs <;> exact h

theorem r0_add (c : Cpu) (h : c.regs 0 = 0) : r0ok c.add := by
  simp only [Cpu.add]
  split_ifs
  · exact rfl
  · exact h

theorem r0_addi (c : Cpu) (h : c.regs 0 = 0) : r0ok c.addi := by
  simp only [Cpu.addi]
  split_ifs
  · exact rfl
  · exact h

theorem r0_sub (c : Cpu) (h : c.regs 0 = 0) : r0ok c.sub := by
  simp only [Cpu.sub]
  split_ifs
  · exact rfl
  · exact h

theorem r0_branchP (c : Cpu) (h : c.regs 0 = 0) (cond : Bool) : (c.branchP cond).regs 0 = 0 := by
  simp only [Cpu.branchP]
  split_ifs <;> exact h

theorem r0_beq (c : Cpu) (h : c.regs 0 = 0) : r0ok c.beq := r0_branchP c h _
theorem r0_bne (c : Cpu) (h : c.regs 0 = 0) : r0ok c.bne := r0_branchP c h _
theorem r0_blez (c : Cpu) (h : c.regs 0 = 0) : r0ok c.blez := r0_branchP c h _
theorem r0_bgtz (c : Cpu) (h : c.regs 0 = 0) : r0ok c.bgtz := r0_branchP c h _

theorem r0_bxxx (c : Cpu) (h : c.regs 0 = 0) : r0ok c.bxxx := by
  simp only [Cpu.bxxx, Cpu.bgezP, Cpu.bltzP]
  split_ifs <;> exact r0_branchP _ (by first | exact h | exact rfl) _

theorem r0_rfe (c : Cpu) (h : c.regs 0 = 0) : r0ok c.rfe := by
  simp only [Cpu.rfe]
  split_ifs
  · exact trivial
  · exact h

theorem r0_mtc0 (c : Cpu) (h : c.regs 0 = 0) : r0ok c.mtc0 := by
  simp only [Cpu.mtc0]
  exact r0ok_map fun _ => h

theorem r0_lb (c : Cpu) (h : c.regs 0 = 0) : r0ok c.lb := by
  simp only [Cpu.lb]
  split_ifs
  · exact h
  · exact r0ok_map fun _ => h

theorem r0_lbu (c : Cpu) (h : c.regs 0 = 0) : r0ok c.lbu := by
  simp only [Cpu.lbu]
  split_ifs
  · exact h
  · exact r0ok_map fun _ => h

theorem r0_lh (c : Cpu) (h : c.regs 0 = 0) : r0ok c.lh := by
  simp only [Cpu.lh]
  split_ifs
  · exact h
  · exact r0ok_map fun _ => h
  · exact h

theorem r0_lhu (c : Cpu) (h : c.regs 0 = 0) : r0ok c.lhu := by
  simp only [Cpu.lhu]
  split_ifs
  · exact h
  · exact r0ok_map fun _ => h
  · exact h

theorem r0_lw (c : Cpu) (h : c.regs 0 = 0) : r0ok c.lw := by
  simp only [Cpu.lw]
  split_ifs
  · exact h
  · exact r0ok_map fun _ => h
  · exact h

theorem r0_lwl (c : Cpu) (h : c.regs 0 = 0) : r0ok c.lwl := by
  simp only [Cpu.lwl]
  exact r0ok_map fun _ => h

theorem r0_lwr (c : Cpu) (h : c.regs 0 = 0) : r0ok c.lwr := by
  simp only [Cpu.lwr]
  exact r0ok_map fun _ => h

theorem r0_sb (c : Cpu) (h : c.regs 0 = 0) : r0ok c.sb := by
  simp only [Cpu.sb]
  split_ifs
  · exact h
  · exact r0ok_map fun _ => h

theorem r0_sh (c : Cpu) (h : c.regs 0 = 0) : r0ok c.sh := by
  simp only [Cpu.sh]
  split_ifs
  · exact h
  · exact r0ok_map fun _ => h
  · exact h

theorem r0_sw (c : Cpu) (h : c.regs 0 = 0) : r0ok c.sw := by
  simp only [Cpu.sw]
  split_ifs
  · exact h
  · exact r0ok_map fun _ => h
  · exact h

theorem r0_swl (c : Cpu) (h : c.regs 0 = 0) : r0ok c.swl := by
  simp only [Cpu.swl]
  exact r0ok_bind fun _ => r0ok_map fun _ => h

theorem r0_swr (c : Cpu) (h : c.regs 0 = 0) : r0ok c.swr := by
  simp only [Cpu.swr]
  exact r0ok_bind fun _ => r0ok_map fun _ => h

theorem r0_decodeFunct (f : Nat) (c : Cpu) (h : c.regs 0 = 0) : r0ok (Cpu.decodeFunct f c) := by
  unfold Cpu.decodeFunct
  by_cases h1 : f = 0
  · rw [if_pos h1]
    exact r0_sll c h
  rw [if_neg h1]
  by_cases h2 : f = 2
  · rw [if_pos h2]
    exact r0_srl c h
  rw [if_neg h2]
  by_cases h3 : f = 3
  · rw [if_pos h3]
    exact r0_sra c h
  rw [if_neg h3]
  by_cases h4 : f = 4
  · rw [if_pos h4]
    exact r0_sllv c h
  rw [if_neg h4]
  by_cases h5 : f = 8
  · rw [if_pos h5]
    exact r0_jr c h
  rw [if_neg h5]
  by_cases h6 : f = 9
  · rw [if_pos h6]
    exact r0_jalr c h
  rw [if_neg h6]
  by_cases h7 : f = 12
  · rw [if_pos h7]
    exact r0_syscall c h
  rw [if_neg h7]
  by_cases h8 : f = 13
  · rw [if_pos h8]
    exact r0_brk c h
  rw [if_neg h8]
  by_cases h9 : f = 24
  · rw [if_pos h9]
    exact r0_mult c h
  rw [if_neg h9]
  by_cases h10 : f = 25
  · rw [if_pos h10]
    exact r0_multu c h
  rw [if_neg h10]
  by_cases h11 : f = 26
  · rw [if_pos h11]
    exact r0_div c h
  rw [if_neg h11]
  by_cases h12 : f = 27
  · rw [if_pos h12]
    exact r0_divu c h
  rw [if_neg h12]
  by_cases h13 : f = 16
  · rw [if_pos h13]
    exact r0_mfhi c h
  rw [if_neg h13]
  by_cases h14 : f = 17
  · rw [if_pos h14]
    exact r0_mthi c h
  rw [if_neg h14]
  by_cases h15 : f = 18
  · rw [if_pos h15]
    exact r0_mflo c h
  rw [if_neg h15]
  by_cases h16 : f = 19
  · rw [if_pos h16]
    exact r0_mtlo c h
  rw [if_neg h16]
  by_cases h17 : f = 32
  · rw [if_pos h17]
    exact r0_add c h
  rw [if_neg h17]
  by_cases h18 : f = 33
  · rw [if_pos h18]
    exact r0_addu c h
  rw [if_neg h18]
  by_cases h19 : f = 34
  · rw [if_pos h19]
    exact r0_sub c h
  rw [if_neg h19]
  by_cases h20 : f = 35
  · rw [if_pos h20]
    exact r0_subu c h
  rw [if_neg h20]
  by_cases h21 : f = 36
  · rw [if_pos h21]
    exact r0_and c h
  rw [if_neg h21]
  by_cases h22 : f = 37
  · rw [if_pos h22]
    exact r0_or c h
  rw [if_neg h22]
  by_cases h23 : f = 42
  · rw [if_pos h23]
    exact r0_slt c h
  rw [if_neg h23]
  by_cases h24 : f = 43
  · rw [if_pos h24]
    exact r0_sltu c h
  rw [if_neg h24]
  by_cases h25 : f = 39
  · rw [if_pos h25]
    exact r0_nor c h
  rw [if_neg h25]
  by_cases h26 : f = 38
  · rw [if_pos h26]
    exact r0_xor c h
  rw [if_neg h26]
  by_cases h27 : f = 7
  · rw [if_pos h27]
    exact r0_srav c h
  rw [if_neg h27]
  by_cases h28 : f = 6
  · rw [if_pos h28]
    exact r0_srlv c h
  rw [if_neg h28]
  exact h

theorem r0_decodeSpecial (c : Cpu) (h : c.regs 0 = 0) : r0ok c.decodeSpecial :=
  r0_decodeFunct _ c h

theorem r0_decodeCop0R (r : Nat) (c : Cpu) (h : c.regs 0 = 0) : r0ok (Cpu.decodeCop0R r c) := by
  unfold Cpu.decodeCop0R
  by_cases h1 : r = 0
  · rw [if_pos h1]
    exact r0_mfc0 c h
  rw [if_neg h1]
  by_cases h2 : r = 4
  · rw [if_pos h2]
    exact r0_mtc0 c h
  rw [if_neg h2]
  by_cases h3 : r = 16
  · rw [if_pos h3]
    exact r0_rfe c h
  rw [if_neg h3]
  exact trivial

theorem r0_decodeCop0 (c : Cpu) (h : c.regs 0 = 0) : r0ok c.decodeCop0 :=
  r0_decodeCop0R _ c h

theorem r0_decodeOp (op : Nat) (c : Cpu) (h : c.regs 0 = 0) : r0ok (Cpu.decodeOp op c) := by
  unfold Cpu.decodeOp
  by_cases h1 : op = 0
  · rw [if_pos h1]
    exact r0_decodeSpecial c h
  rw [if_neg h1]
  by_cases h2 : op = 16
  · rw [if_pos h2]
    exact r0_decodeCop0 c h
  rw [if_neg h2]
  by_cases h3 : op = 17
  · rw [if_pos h3]
    exact h
  rw [if_neg h3]
  by_cases h4 : op = 18
  · rw [if_pos h4]
    exact trivial
  rw [if_neg h4]
  by_cases h5 : op = 19
  · rw [if_pos h5]
    exact h
  rw [if_neg h5]
  by_cases h6 : op = 48
  · rw [if_pos h6]
    exact h
  rw [if_neg h6]
  by_cases h7 : op = 49
  · rw [if_pos h7]
    exact h
  rw [if_neg h7]
  by_cases h8 : op = 50
  · rw [if_pos h8]
    exact trivial
  rw [if_neg h8]
  by_cases h9 : op = 51
  · rw [if_pos h9]
    exact h
  rw [if_neg h9]
  by_cases h10 : op = 56
  · rw [if_pos h10]
    exact h
  rw [if_neg h10]
  by_cases h11 : op = 57
  · rw [if_pos h11]
    exact h
  rw [if_neg h11]
  by_cases h12 : op = 58
  · rw [if_pos h12]
    exact trivial
  rw [if_neg h12]
  by_cases h13 : op = 59
  · rw [if_pos h13]
    exact h
  rw [if_neg h13]
  by_cases h14 : op = 1
  · rw [if_pos h14]
    exact r0_bxxx c h
  rw [if_neg h14]
  by_cases h15 : op = 2
  · rw [if_pos h15]
    exact r0_jump c h
  rw [if_neg h15]
  by_cases h16 : op = 3
  · rw [if_pos h16]
    exact r0_jal c h
  rw [if_neg h16]
  by_cases h17 : op = 4
  · rw [if_pos h17]
    exact r0_beq c h
  rw [if_neg h17]
  by_cases h18 : op = 5
  · rw [if_pos h18]
    exact r0_bne c h
  rw [if_neg h18]
  by_cases h19 : op = 6
  · rw [if_pos h19]
    exact r0_blez c h
  rw [if_neg h19]
  by_cases h20 : op = 7
  · rw [if_pos h20]
    exact r0_bgtz c h
  rw [if_neg h20]
  by_cases h21 : op = 8
  · rw [if_pos h21]
    exact r0_addi c h
  rw [if_neg h21]
  by_cases h22 : op = 9
  · rw [if_pos h22]
    exact r0_addiu c h
  rw [if_neg h22]
  by_cases h23 : op = 10
  · rw [if_pos h23]
    exact r0_slti c h
  rw [if_neg h23]
  by_cases h24 : op = 11
  · rw [if_pos h24]
    exact r0_sltiu c h
  rw [if_neg h24]
  by_cases h25 : op = 12
  · rw [if_pos h25]
    exact r0_andi c h
  rw [if_neg h25]
  by_cases h26 : op = 13
  · rw [if_pos h26]
    exact r0_ori c h
  rw [if_neg h26]
  by_cases h27 : op = 14
  · rw [if_pos h27]
    exact r0_xori c h
  rw [if_neg h27]
  by_cases h28 : op = 15
  · rw [if_pos h28]
    exact r0_lui c h
  rw [if_neg h28]
  by_cases h29 : op = 32
  · rw [if_pos h29]
    exact r0_lb c h
  rw [if_neg h29]
  by_cases h30 : op = 33
  · rw [if_pos h30]
    exact r0_lh c h
  rw [if_neg h30]
  by_cases h31 : op = 37
  · rw [if_pos h31]
    exact r0_lhu c h
  rw [if_neg h31]
  by_cases h32 : op = 36
  · rw [if_pos h32]
    exact r0_lbu c h
  rw [if_neg h32]
  by_cases h33 : op = 35
  · rw [if_pos h33]
    exact r0_lw c h
  rw [if_neg h33]
  by_cases h34 : op = 40
  · rw [if_pos h34]
    exact r0_sb c h
  rw [if_neg h34]
  by_cases h35 : op = 41
  · rw [if_pos h35]
    exact r0_sh c h
  rw [if_neg h35]
  by_cases h36 : op = 43
  · rw [if_pos h36]
    exact r0_sw c h
  rw [if_neg h36]
  by_cases h37 : op = 34
  · rw [if_pos h37]
    exact r0_lwl c h
  rw [if_neg h37]
  by_cases h38 : op = 38
  · rw [if_pos h38]
    exact r0_lwr c h
  rw [if_neg h38]
  by_cases h39 : op = 42
  · rw [if_pos h39]
    exact r0_swl c h
  rw [if_neg h39]
  by_cases h40 : op = 46
  · rw [if_pos h40]
    exact r0_swr c h
  rw [if_neg h40]
  exact h

theorem r0_decode (c : Cpu) (h : c.regs 0 = 0) : r0ok c.decode :=
  r0_decodeOp _ c h

theorem r0ok_map_pres {o : Option Cpu} (ho : r0ok o) (f : Cpu → Cpu)
    (hf : ∀ a, a.regs 0 = 0 → (f a).regs 0 = 0) : r0ok (o.map f) := by
  cases o
  · exact trivial
  · exact hf _ ho

theorem r0_commitLd (c : Cpu) (h : c.regs 0 = 0) : (Cpu.commitLd c).regs 0 = 0 := by
  rcases hq : c.ld_delay_slots with _ | ⟨⟨r, v⟩, rest⟩ <;> simp [Cpu.commitLd, hq]
  · exact h
  · exact rfl

theorem r0_stepAfterCommit (d : Cpu) (hd : d.regs 0 = 0) : r0ok d.stepAfterCommit := by
  simp only [Cpu.stepAfterCommit]
  by_cases halign : d.advancePc.curr_pc % 4 ≠ 0
  · rw [if_pos halign]
    exact hd
  · rw [if_neg halign]
    apply r0ok_bind
    intro w
    apply r0ok_map_pres (r0_decode { d.advancePc with i := w } hd)
    intro a ha
    split_ifs <;> exact ha

theorem r0_step (c : Cpu) (h : c.regs 0 = 0) : r0ok (Cpu.step c) := by
  simp only [Cpu.step]
  exact r0_stepAfterCommit _ (r0_commitLd c h)

theorem readAux_isSome (m : Mmu) (size : Nat) (access : (Nat → Nat) → Nat → Nat) (addr : Nat)
    (h : addr % size = 0) : ∃ w, m.readAux size access addr = some w := by
  unfold Mmu.readAux
  rw [if_neg (by simp [h])]
  rcases hB : Mmu.BIOS.contains (Mmu.mask_region addr) with _ | ob
  · rcases hR : Mmu.RAM.contains (Mmu.mask_region addr) with _ | oa
    · simp only [hB, hR]
      split_ifs <;> exact ⟨_, rfl⟩
    · simp only [hB, hR]
      exact ⟨_, rfl⟩
  · simp only [hB]
    exact ⟨_, rfl⟩

theorem read32_isSome (m : Mmu) (addr : Nat) (h : addr % 4 = 0) : ∃ w, m.read32 addr = some w :=
  readAux_isSome m 4 read32b addr h

theorem read16_isSome (m : Mmu) (addr : Nat) (h : addr % 2 = 0) : ∃ w, m.read16 addr = some w :=
  readAux_isSome m 2 read16b addr h

theorem read8_isSome (m : Mmu) (addr : Nat) : ∃ w, m.read8 addr = some w :=
  readAux_isSome m 1 read8b addr (Nat.mod_one addr)

theorem and_not3_mod4 (x : Nat) : (x &&& not32 3) % 4 = 0 := by
  have h2 : not32 3 &&& 3 = 0 := by decide
  have h1 : (x &&& not32 3) &&& 3 = 0 := by
    rw [Nat.and_assoc, h2, Nat.and_zero]
  have h3 := Nat.and_pow_two_sub_one_eq_mod (x &&& not32 3) 2
  norm_num at h3
  rw [← h3]
  exact h1

theorem beq_one_eq_testBit (x n : Nat) : ((x >>> n) &&& 1 == 1) = Nat.testBit x n := by
  rw [Nat.testBit, Nat.and_comm]
  rcases Nat.mod_two_eq_zero_or_one (x >>> n) with h2 | h2 <;>
    simp [Nat.one_and_eq_mod_two, h2]

theorem sr_push_testBit22 (sr : Nat) :
    Nat.testBit ((sr &&& not32 0x3f) ||| ((sr &&& 0x3f) <<< 2 &&& 0x3f)) 22 = Nat.testBit sr 22 := by
  have h1 : Nat.testBit (not32 0x3f) 22 = true := by decide
  have h2 : Nat.testBit ((sr &&& 0x3f) <<< 2 &&& 0x3f) 22 = false :=
    Nat.testBit_lt_two_pow (lt_of_le_of_lt Nat.and_le_right (by norm_num))
  rw [Nat.testBit_or, Nat.testBit_and, h1, h2]
  simp

theorem toUInt32_toInt32 (x : Nat) (h : x < U32) : toUInt32 (toInt32 x) = x := by
  unfold U32 at h
  unfold toUInt32 toInt32 U32
  split_ifs <;> omega

/-! Claim theorems. -/

/-- C1 counterexample: at dividend 0 (which is ≥ 0) and divisor 0, DIV sets
LO to 1, not to 0xFFFFFFFF as the claim states for every non-negative
dividend. -/
theorem C1_counterexample :
    (0 : Int) ≤ toInt32 cpuDiv0.rs_val ∧
    toInt32 cpuDiv0.rt_val = 0 ∧
    Option.map Cpu.lo (Cpu.div cpuDiv0) = some 1 ∧
    Option.map Cpu.lo (Cpu.div cpuDiv0) ≠ some 0xffffffff :=
  ⟨by decide, by decide, rfl, by decide⟩

/-- C1 (amended): for DIV with divisor 0, HI is the dividend and LO is
0xFFFFFFFF when the signed dividend is strictly positive and 0x00000001
when it is zero or negative; for DIVU with divisor 0, HI is the dividend
and LO is 0xFFFFFFFF. -/
theorem C1_div_by_zero (c : Cpu) (hrs : c.rs_val < U32) :
    (toInt32 c.rt_val = 0 →
      Option.map Cpu.hi (Cpu.div c) = some c.rs_val ∧
      Option.map Cpu.lo (Cpu.div c) = some (if 0 < toInt32 c.rs_val then 0xffffffff else 1)) ∧
    (c.rt_val = 0 →
      Option.map Cpu.hi (Cpu.divu c) = some c.rs_val ∧
      Option.map Cpu.lo (Cpu.divu c) = some 0xffffffff) := by
  constructor
  · intro h0
    unfold Cpu.div
    rw [if_pos h0]
    refine ⟨?_, rfl⟩
    show some (toUInt32 (toInt32 c.rs_val)) = some c.rs_val
    rw [toUInt32_toInt32 c.rs_val hrs]
  · intro h0
    unfold Cpu.divu
    rw [if_pos h0]
    exact ⟨rfl, rfl⟩

/-- C1 witness: DIV 0 / 0 gives HI = 0 and LO = 1; DIVU 0 / 0 gives
LO = 0xFFFFFFFF. -/
theorem C1_witness :
    Option.map Cpu.hi (Cpu.div cpuDiv0) = some 0 ∧
    Option.map Cpu.lo (Cpu.div cpuDiv0) = some 1 ∧
    Option.map Cpu.lo (Cpu.divu cpuDiv0) = some 0xffffffff := by
  have h := C1_div_by_zero cpuDiv0 (by decide)
  obtain ⟨hdiv, hdivu⟩ := h
  obtain ⟨h1, h2⟩ := hdiv (by decide)
  obtain ⟨h3, h4⟩ := hdivu (by decide)
  refine ⟨h1, ?_, h4⟩
  rw [h2]
  decide

/-- C2: executing SWL at the unaligned effective address 0x21 issues the
store to the raw address, tripping the MMU unaligned-write assertion
(modelled as `none`); the claim that the store goes to `addr & ~3` and that
the assertion is unreachable from the CPU layer is contradicted by the
code. -/
theorem C2_swl_unaligned_panics :
    (add32 cpuSwlBug.rs_val (Instr.imm16sign cpuSwlBug.i)) % 4 = 1 ∧
    Cpu.swl cpuSwlBug = none :=
  ⟨rfl, rfl⟩

/-- C3 counterexample: with SR bit 16 set (cache isolated), LWL still pushes
an entry onto the load-delay queue, so not every load is discarded. -/
theorem C3_counterexample :
    cpuIso.cop0.is_cache_isolated = true ∧
    cpuIso.ld_delay_slots = [] ∧
    Option.map (fun c => c.ld_delay_slots.length) (Cpu.lwl cpuIso) = some 1 :=
  ⟨rfl, rfl, rfl⟩

theorem map_mmu_store (c : Cpu) (cop : Cop0) (o : Option Nat) (g : Nat → Option Mmu) :
    Option.map Cpu.mmu (o.bind fun w => (g w).map fun m => { c with cop0 := cop, mmu := m }) =
    Option.map Cpu.mmu (o.bind fun w => (g w).map fun m => { c with mmu := m }) := by
  cases o with
  | none => rfl
  | some w => cases hm : g w <;> simp [hm]

/-- C3 (amended): while SR bit 16 is set, LB, LBU, LH, LHU and LW are
silently discarded and SB, SH and SW are silently dropped (state entirely
unchanged, no fault); LWL, LWR, SWL and SWR are not suppressed: LWL and
LWR still push onto the load-delay queue, and the store issued by SWL and
SWR is independent of the COP0 state (SR bit 16 included). -/
theorem C3_cache_isolated (c : Cpu) (h : c.cop0.is_cache_isolated = true) :
    Cpu.lb c = some c ∧ Cpu.lbu c = some c ∧ Cpu.lh c = some c ∧ Cpu.lhu c = some c ∧
    Cpu.lw c = some c ∧ Cpu.sb c = some c ∧ Cpu.sh c = some c ∧ Cpu.sw c = some c ∧
    (∃ v, Option.map Cpu.ld_delay_slots (Cpu.lwl c) = some (c.ld_delay_slots ++ [(Instr.rt c.i, v)])) ∧
    (∃ v, Option.map Cpu.ld_delay_slots (Cpu.lwr c) = some (c.ld_delay_slots ++ [(Instr.rt c.i, v)])) ∧
    (∀ cop : Cop0, Option.map Cpu.mmu (Cpu.swl { c with cop0 := cop }) = Option.map Cpu.mmu (Cpu.swl c)) ∧
    (∀ cop : Cop0, Option.map Cpu.mmu (Cpu.swr { c with cop0 := cop }) = Option.map Cpu.mmu (Cpu.swr c)) := by
  obtain ⟨w1, hw1⟩ := read32_isSome c.mmu ((add32 c.rs_val (Instr.imm16sign c.i)) &&& not32 3) (and_not3_mod4 _)
  refine ⟨?_, ?_, ?_, ?_, ?_, ?_, ?_, ?_, ?_, ?_, ?_, ?_⟩
  · unfold Cpu.lb
    rw [if_pos h]
  · unfold Cpu.lbu
    rw [if_pos h]
  · unfold Cpu.lh
    rw [if_pos h]
  · unfold Cpu.lhu
    rw [if_pos h]
  · unfold Cpu.lw
    rw [if_pos h]
  · unfold Cpu.sb
    rw [if_pos h]
  · unfold Cpu.sh
    rw [if_pos h]
  · unfold Cpu.sw
    rw [if_pos h]
  · simp only [Cpu.lwl]
    rw [hw1]
    exact ⟨_, rfl⟩
  · simp only [Cpu.lwr]
    rw [hw1]
    exact ⟨_, rfl⟩
  · intro cop
    simp only [Cpu.swl, Cpu.rs_val, Cpu.rt_val, Cpu.reg]
    exact map_mmu_store c cop _ _
  · intro cop
    simp only [Cpu.swr, Cpu.rs_val, Cpu.rt_val, Cpu.reg]
    exact map_mmu_store c cop _ _

/-- C3 witness: at the concrete cache-isolated state, LW and SW leave the
state unchanged, SWL behaves the same whether or not SR bit 16 is cleared,
and a concrete aligned SWL executed while isolated really commits its
store to RAM (byte 0x23 changes from the 0xca fill to 0xde). -/
theorem C3_witness :
    Cpu.lw cpuIso = some cpuIso ∧ Cpu.sw cpuIso = some cpuIso ∧
    Option.map Cpu.mmu (Cpu.swl { cpuIso with cop0 := Cop0.default }) =
      Option.map Cpu.mmu (Cpu.swl cpuIso) ∧
    cpuIsoSwl.cop0.is_cache_isolated = true ∧
    cpuIsoSwl.mmu.ram 0x23 = 0xca ∧
    Option.map (fun s => s.mmu.ram 0x23) (Cpu.swl cpuIsoSwl) = some 0xde := by
  have h := C3_cache_isolated cpuIso rfl
  exact ⟨h.2.2.2.2.1, h.2.2.2.2.2.2.2.1, h.2.2.2.2.2.2.2.2.2.2.1 Cop0.default, rfl, rfl, rfl⟩

/-- C4 counterexample: the reset pc is 0x1FC00000 (the KUSEG mirror of the
BIOS window), not 0xBFC00000 as the claim states. -/
theorem C4_counterexample : (Cpu.new mmu0).pc ≠ 0xbfc00000 := by decide

/-- C4 (amended): reset state: registers 1..31 hold 0xDEADBEEF, r0 = 0,
HI = LO = 0, pc = Mmu::BIOS.start = 0x1FC00000, curr_pc = pc,
next_pc = pc + 4, and SR, CAUSE and EPC are all zero. -/
theorem C4_reset_state (mmu : Mmu) :
    (∀ r : Fin 32, (Cpu.new mmu).regs r.val = if r.val = 0 then 0 else 0xdeadbeef) ∧
    (Cpu.new mmu).hi = 0 ∧ (Cpu.new mmu).lo = 0 ∧
    (Cpu.new mmu).pc = 0x1fc00000 ∧ Mmu.BIOS.start = 0x1fc00000 ∧
    (Cpu.new mmu).curr_pc = (Cpu.new mmu).pc ∧
    (Cpu.new mmu).next_pc = (Cpu.new mmu).pc + 4 ∧
    (Cpu.new mmu).cop0.sr = 0 ∧ (Cpu.new mmu).cop0.cause = 0 ∧ (Cpu.new mmu).cop0.epc = 0 :=
  ⟨fun _ => rfl, rfl, rfl, rfl, rfl, rfl, rfl, rfl, rfl, rfl⟩

theorem boot_testBit (x : Cop0) : x.boot_expt_vector = Nat.testBit x.sr 22 :=
  beq_one_eq_testBit x.sr 22

theorem boot_push (cop : Cop0) (ca : Nat) :
    Cop0.boot_expt_vector
      { sr := (cop.sr &&& not32 0x3f) ||| ((cop.sr &&& 0x3f) <<< 2 &&& 0x3f), cause := ca,
        epc := cop.epc } = Cop0.boot_expt_vector cop := by
  rw [boot_testBit, boot_testBit]
  exact sr_push_testBit22 cop.sr

/-- C6: exception entry sets CAUSE, the SR kernel/interrupt stack, EPC (with
the delay-slot adjustment and CAUSE bit 31), the handler pc chosen by the
pre-existing SR bit 22, and next_pc = pc + 4. -/
theorem C6_exception_entry (c : Cpu) (k : Exception) :
    (Cpu.exception c k).cop0.cause =
      (if c.in_delay_slot then
        ((c.cop0.cause &&& not32 0x7c) ||| (Exception.code k <<< 2)) ||| (1 <<< 31)
      else (c.cop0.cause &&& not32 0x7c) ||| (Exception.code k <<< 2)) ∧
    (Cpu.exception c k).cop0.sr = (c.cop0.sr &&& not32 0x3f) ||| ((c.cop0.sr &&& 0x3f) <<< 2 &&& 0x3f) ∧
    (Cpu.exception c k).cop0.epc = (if c.in_delay_slot then sub32 c.curr_pc 4 else c.curr_pc) ∧
    (Cpu.exception c k).pc = (if Nat.testBit c.cop0.sr 22 then 0xbfc00180 else 0x80000080) ∧
    (Cpu.exception c k).next_pc = add32 (Cpu.exception c k).pc 4 := by
  refine ⟨rfl, rfl, rfl, ?_, rfl⟩
  simp only [Cpu.exception]
  rw [boot_push c.cop0, boot_testBit]

/-- C7: ADD, ADDI and SUB write the truncated signed result through
`set_reg` when the exact signed result fits in i32, and raise the Overflow
exception otherwise; the exception leaves the register file untouched and
`set_reg` leaves COP0 and the pc untouched. -/
theorem C7_overflow_discipline (c : Cpu) :
    (inI32 (toInt32 c.rs_val + toInt32 c.rt_val) = true →
      Cpu.add c = some (c.set_reg (Instr.rd c.i) (toUInt32 (toInt32 c.rs_val + toInt32 c.rt_val)))) ∧
    (inI32 (toInt32 c.rs_val + toInt32 c.rt_val) = false →
      Cpu.add c = some (c.exception .Overflow)) ∧
    (inI32 (toInt32 c.rs_val + toInt32 (Instr.imm16sign c.i)) = true →
      Cpu.addi c = some (c.set_reg (Instr.rt c.i) (toUInt32 (toInt32 c.rs_val + toInt32 (Instr.imm16sign c.i))))) ∧
    (inI32 (toInt32 c.rs_val + toInt32 (Instr.imm16sign c.i)) = false →
      Cpu.addi c = some (c.exception .Overflow)) ∧
    (inI32 (toInt32 c.rs_val - toInt32 c.rt_val) = true →
      Cpu.sub c = some (c.set_reg (Instr.rd c.i) (toUInt32 (toInt32 c.rs_val - toInt32 c.rt_val)))) ∧
    (inI32 (toInt32 c.rs_val - toInt32 c.rt_val) = false →
      Cpu.sub c = some (c.exception .Overflow)) ∧
    (∀ k, (c.exception k).regs = c.regs) ∧
    (∀ r v, (c.set_reg r v).cop0 = c.cop0 ∧ (c.set_reg r v).pc = c.pc) := by
  refine ⟨?_, ?_, ?_, ?_, ?_, ?_, fun _ => rfl, fun _ _ => ⟨rfl, rfl⟩⟩
  · intro h
    unfold Cpu.add
    rw [if_pos h]
  · intro h
    unfold Cpu.add
    rw [if_neg (by simp [h])]
  · intro h
    unfold Cpu.addi
    rw [if_pos h]
  · intro h
    unfold Cpu.addi
    rw [if_neg (by simp [h])]
  · intro h
    unfold Cpu.sub
    rw [if_pos h]
  · intro h
    unfold Cpu.sub
    rw [if_neg (by simp [h])]

/-- C7 witness: 0x7FFFFFFF + 1 overflows, raises Overflow, and r3 is
unchanged. -/
theorem C7_witness :
    Cpu.add cpuOvf = some (Cpu.exception cpuOvf Exception.Overflow) ∧
    (Cpu.exception cpuOvf Exception.Overflow).regs 3 = cpuOvf.regs 3 := by
  have h := C7_overflow_discipline cpuOvf
  refine ⟨h.2.1 (by decide), ?_⟩
  rw [h.2.2.2.2.2.2.1 Exception.Overflow]

/-- C9: for A in the first 512 MiB, the region mask routes A and its KSEG0
and KSEG1 mirrors to the same physical address A, and 32-bit reads and
writes through the MMU at the mirrors behave identically to those at A. -/
theorem C9_region_mirror (A : Nat) (h : A < 0x20000000) :
    Mmu.mask_region A = A ∧
    Mmu.mask_region (A ||| 0x80000000) = A ∧
    Mmu.mask_region (A ||| 0xa0000000) = A ∧
    (∀ m : Mmu, m.read32 (A ||| 0x80000000) = m.read32 A ∧
      m.read32 (A ||| 0xa0000000) = m.read32 A) ∧
    (∀ m : Mmu, ∀ v, m.write32 (A ||| 0x80000000) v = m.write32 A v ∧
      m.write32 (A ||| 0xa0000000) v = m.write32 A v) := by
  have h29 : A < 2 ^ 29 := by omega
  have hlor1 : A ||| 0x80000000 = 0x80000000 + A := by
    have h31 : A < 2 ^ 31 := lt_trans h29 (by norm_num)
    have hx := Nat.mul_add_lt_is_or h31 1
    norm_num at hx
    rw [Nat.lor_comm]
    exact hx.symm
  have hlor2 : A ||| 0xa0000000 = 0xa0000000 + A := by
    have hx := Nat.mul_add_lt_is_or h29 5
    norm_num at hx
    rw [Nat.lor_comm]
    exact hx.symm
  have hm0 : Mmu.mask_region A = A := by
    unfold Mmu.mask_region
    have hs : A >>> 29 = 0 := by
      rw [Nat.shiftRight_eq_div_pow]
      exact Nat.div_eq_of_lt h29
    rw [hs]
    show A &&& 0xffffffff = A
    have h32 : A < 2 ^ 32 := lt_trans h29 (by norm_num)
    have hx := Nat.and_pow_two_sub_one_of_lt_two_pow h32
    norm_num at hx
    exact hx
  have hm1 : Mmu.mask_region (A ||| 0x80000000) = A := by
    unfold Mmu.mask_region
    have hs : (A ||| 0x80000000) >>> 29 = 4 := by
      rw [hlor1, Nat.shiftRight_eq_div_pow]
      exact Nat.div_eq_of_lt_le (by omega) (by omega)
    rw [hs]
    show (A ||| 0x80000000) &&& (2 ^ 31 - 1) = A
    rw [Nat.and_pow_two_sub_one_eq_mod, hlor1]
    omega
  have hm2 : Mmu.mask_region (A ||| 0xa0000000) = A := by
    unfold Mmu.mask_region
    have hs : (A ||| 0xa0000000) >>> 29 = 5 := by
      rw [hlor2, Nat.shiftRight_eq_div_pow]
      exact Nat.div_eq_of_lt_le (by omega) (by omega)
    rw [hs]
    show (A ||| 0xa0000000) &&& (2 ^ 29 - 1) = A
    rw [Nat.and_pow_two_sub_one_eq_mod, hlor2]
    omega
  have hmod1 : (A ||| 0x80000000) % 4 = A % 4 := by
    rw [hlor1]
    omega
  have hmod2 : (A ||| 0xa0000000) % 4 = A % 4 := by
    rw [hlor2]
    omega
  refine ⟨hm0, hm1, hm2, ?_, ?_⟩
  · intro m
    constructor
    · simp only [Mmu.read32, Mmu.readAux]
      rw [hmod1, hm1, hm0]
    · simp only [Mmu.read32, Mmu.readAux]
      rw [hmod2, hm2, hm0]
  · intro m v
    constructor
    · simp only [Mmu.write32, Mmu.writeAux]
      rw [hmod1, hm1, hm0]
    · simp only [Mmu.write32, Mmu.writeAux]
      rw [hmod2, hm2, hm0]

/-- C9 witness: the BIOS entry address and its KSEG0/KSEG1 mirrors all mask
to the same physical address. -/
theorem C9_witness :
    Mmu.mask_region 0x1fc00000 = 0x1fc00000 ∧
    Mmu.mask_region 0x9fc00000 = 0x1fc00000 ∧
    Mmu.mask_region 0xbfc00000 = 0x1fc00000 := by
  have h := C9_region_mirror 0x1fc00000 (by norm_num)
  have e1 : (0x1fc00000 ||| 0x80000000 : Nat) = 0x9fc00000 := by decide
  have e2 : (0x1fc00000 ||| 0xa0000000 : Nat) = 0xbfc00000 := by decide
  refine ⟨h.1, ?_, ?_⟩
  · rw [← e1]
    exact h.2.1
  · rw [← e2]
    exact h.2.2.1

/-- C10: a COP0 register write to any index outside
{3, 5, 6, 7, 9, 11, 12, 13, 14} panics regardless of the value; indices
3, 5, 6, 7, 9, 11 are no-ops for value 0 and panic for non-zero values;
only 12, 13, 14 store into SR, CAUSE, EPC; a panicking `Cop0::set_reg`
makes MTC0 panic. -/
theorem C10_cop0_set_reg (cop : Cop0) (r v : Nat) :
    (¬(r = 3 ∨ r = 5 ∨ r = 6 ∨ r = 7 ∨ r = 9 ∨ r = 11 ∨ r = 12 ∨ r = 13 ∨ r = 14) →
      Cop0.set_reg cop r v = none) ∧
    ((r = 3 ∨ r = 5 ∨ r = 6 ∨ r = 7 ∨ r = 9 ∨ r = 11) →
      (v = 0 → Cop0.set_reg cop r v = some cop) ∧ (v ≠ 0 → Cop0.set_reg cop r v = none)) ∧
    Cop0.set_reg cop 12 v = some { cop with sr := v } ∧
    Cop0.set_reg cop 13 v = some { cop with cause := v } ∧
    Cop0.set_reg cop 14 v = some { cop with epc := v } ∧
    (∀ c : Cpu, Cop0.set_reg c.cop0 (Instr.rd c.i) c.rt_val = none → Cpu.mtc0 c = none) := by
  refine ⟨?_, ?_, rfl, rfl, rfl, ?_⟩
  · intro hn
    push_neg at hn
    obtain ⟨n3, n5, n6, n7, n9, n11, n12, n13, n14⟩ := hn
    unfold Cop0.set_reg
    rw [if_neg (by tauto), if_neg n12, if_neg n13, if_neg n14]
  · intro hd
    constructor
    · intro hv0
      unfold Cop0.set_reg
      rw [if_pos hd, if_neg (by simp [hv0])]
    · intro hvn
      unfold Cop0.set_reg
      rw [if_pos hd, if_pos hvn]
  · intro c hc
    unfold Cpu.mtc0
    rw [hc]
    rfl

/-- C10 witness: writing 0 to COP0 index 0 panics; writing 0 to index 3 is
a no-op; writing 5 to index 3 panics. -/
theorem C10_witness :
    Cop0.set_reg Cop0.default 0 0 = none ∧
    Cop0.set_reg Cop0.default 3 0 = some Cop0.default ∧
    Cop0.set_reg Cop0.default 3 5 = none := by
  have h0 := C10_cop0_set_reg Cop0.default 0 0
  have h3 := C10_cop0_set_reg Cop0.default 3 0
  have h35 := C10_cop0_set_reg Cop0.default 3 5
  exact ⟨h0.1 (by decide), (h3.2.1 (Or.inl rfl)).1 rfl, (h35.2.1 (Or.inl rfl)).2 (by decide)⟩

/-- C5: load-delay discipline.  Successful loads append their (rt, value)
pair to the load-delay queue and leave the register file untouched (so a
delay-slot instruction still reads the pre-load value); `step` commits
exactly the head of the queue through `set_reg` before doing anything
else; and the register side of LWL/LWR takes the first pending queued
value for rt, falling back to the register file when none is queued. -/
theorem C5_load_delay :
    (∀ c : Cpu, c.cop0.is_cache_isolated = false →
      (∃ v, Option.map Cpu.ld_delay_slots (Cpu.lb c) = some (c.ld_delay_slots ++ [(Instr.rt c.i, v)]) ∧
        Option.map Cpu.regs (Cpu.lb c) = some c.regs) ∧
      (∃ v, Option.map Cpu.ld_delay_slots (Cpu.lbu c) = some (c.ld_delay_slots ++ [(Instr.rt c.i, v)]) ∧
        Option.map Cpu.regs (Cpu.lbu c) = some c.regs) ∧
      ((add32 c.rs_val (Instr.imm16sign c.i)) % 2 = 0 →
        (∃ v, Option.map Cpu.ld_delay_slots (Cpu.lh c) = some (c.ld_delay_slots ++ [(Instr.rt c.i, v)]) ∧
          Option.map Cpu.regs (Cpu.lh c) = some c.regs) ∧
        (∃ v, Option.map Cpu.ld_delay_slots (Cpu.lhu c) = some (c.ld_delay_slots ++ [(Instr.rt c.i, v)]) ∧
          Option.map Cpu.regs (Cpu.lhu c) = some c.regs)) ∧
      ((add32 c.rs_val (Instr.imm16sign c.i)) % 4 = 0 →
        ∃ v, Option.map Cpu.ld_delay_slots (Cpu.lw c) = some (c.ld_delay_slots ++ [(Instr.rt c.i, v)]) ∧
          Option.map Cpu.regs (Cpu.lw c) = some c.regs)) ∧
    (∀ c : Cpu,
      (∃ v, Option.map Cpu.ld_delay_slots (Cpu.lwl c) = some (c.ld_delay_slots ++ [(Instr.rt c.i, v)]) ∧
        Option.map Cpu.regs (Cpu.lwl c) = some c.regs) ∧
      (∃ v, Option.map Cpu.ld_delay_slots (Cpu.lwr c) = some (c.ld_delay_slots ++ [(Instr.rt c.i, v)]) ∧
        Option.map Cpu.regs (Cpu.lwr c) = some c.regs)) ∧
    (∀ c : Cpu, ∀ r v rest, c.ld_delay_slots = (r, v) :: rest →
      (Cpu.commitLd c).regs = setRegFile c.regs r v ∧ (Cpu.commitLd c).ld_delay_slots = rest) ∧
    (∀ c : Cpu, Cpu.step c = (Cpu.commitLd c).stepAfterCommit) ∧
    (∀ c : Cpu, ∀ v, findPending c.ld_delay_slots (Instr.rt c.i) = some v → Cpu.lwl_reg c = v) ∧
    (∀ c : Cpu, findPending c.ld_delay_slots (Instr.rt c.i) = none → Cpu.lwl_reg c = c.rt_val) := by
  refine ⟨?_, ?_, ?_, fun _ => rfl, ?_, ?_⟩
  · intro c hiso
    refine ⟨?_, ?_, ?_, ?_⟩
    · obtain ⟨w, hw⟩ := read8_isSome c.mmu (add32 c.rs_val (Instr.imm16sign c.i))
      simp only [Cpu.lb]
      rw [if_neg (by simp [hiso]), hw]
      exact ⟨_, rfl, rfl⟩
    · obtain ⟨w, hw⟩ := read8_isSome c.mmu (add32 c.rs_val (Instr.imm16sign c.i))
      simp only [Cpu.lbu]
      rw [if_neg (by simp [hiso]), hw]
      exact ⟨_, rfl, rfl⟩
    · intro halign
      obtain ⟨w, hw⟩ := read16_isSome c.mmu (add32 c.rs_val (Instr.imm16sign c.i)) halign
      constructor
      · simp only [Cpu.lh]
        rw [if_neg (by simp [hiso]), if_pos halign, hw]
        exact ⟨_, rfl, rfl⟩
      · simp only [Cpu.lhu]
        rw [if_neg (by simp [hiso]), if_pos halign, hw]
        exact ⟨_, rfl, rfl⟩
    · intro halign
      obtain ⟨w, hw⟩ := read32_isSome c.mmu (add32 c.rs_val (Instr.imm16sign c.i)) halign
      simp only [Cpu.lw]
      rw [if_neg (by simp [hiso]), if_pos halign, hw]
      exact ⟨_, rfl, rfl⟩
  · intro c
    obtain ⟨w, hw⟩ := read32_isSome c.mmu ((add32 c.rs_val (Instr.imm16sign c.i)) &&& not32 3) (and_not3_mod4 _)
    constructor
    · simp only [Cpu.lwl]
      rw [hw]
      exact ⟨_, rfl, rfl⟩
    · simp only [Cpu.lwr]
      rw [hw]
      exact ⟨_, rfl, rfl⟩
  · intro c r v rest hq
    have hc : Cpu.commitLd c = { c.set_reg r v with ld_delay_slots := rest } := by
      unfold Cpu.commitLd
      rw [hq]
    rw [hc]
    exact ⟨rfl, rfl⟩
  · intro c v hf
    unfold Cpu.lwl_reg
    rw [hf]
    rfl
  · intro c hf
    unfold Cpu.lwl_reg
    rw [hf]
    rfl

/-- C5 witness: a concrete aligned LW pushes to the queue leaving registers
unchanged, a concrete pending pair is committed by the queue pop, and a
concrete LWL reads the pending value 77 queued for its rt. -/
theorem C5_witness :
    (∃ v, Option.map Cpu.ld_delay_slots (Cpu.lw cpuLw) = some ([] ++ [(1, v)]) ∧
      Option.map Cpu.regs (Cpu.lw cpuLw) = some cpuLw.regs) ∧
    (Cpu.commitLd cpuPend).regs = setRegFile cpuPend.regs 5 77 ∧
    (Cpu.commitLd cpuPend).ld_delay_slots = [] ∧
    Cpu.lwl_reg cpuPendLwl = 77 := by
  have h := C5_load_delay
  refine ⟨?_, ?_, ?_, ?_⟩
  · obtain ⟨v, h1, h2⟩ := (h.1 cpuLw rfl).2.2.2 (by decide)
    exact ⟨v, h1, h2⟩
  · exact (h.2.2.1 cpuPend 5 77 [] rfl).1
  · exact (h.2.2.1 cpuPend 5 77 [] rfl).2
  · exact h.2.2.2.2.1 cpuPendLwl 77 rfl

/-- C8: register 0 is hardwired to zero: every register-file write leaves
slot 0 equal to zero, the reset state has it zero, and one full `step`
(including the load-delay commit, fetch, decode and every instruction
handler) preserves it, whenever the step does not panic. -/
theorem C8_r0_invariant :
    (∀ regs r v, setRegFile regs r v 0 = 0) ∧
    (∀ m : Mmu, (Cpu.new m).regs 0 = 0) ∧
    (∀ c : Cpu, c.regs 0 = 0 → r0ok (Cpu.step c)) :=
  ⟨fun _ _ _ => rfl, fun _ => rfl, r0_step⟩

/-- C8 witness: one step from the concrete reset state keeps r0 = 0. -/
theorem C8_witness : r0ok (Cpu.step cpu0) :=
  C8_r0_invariant.2.2 cpu0 rfl

end PS1
